import Mathlib

/-!
Verification of the CSE market-data client and UI module (src/cseApi.js).

The JavaScript module is shallowly embedded:
* JSON values (the payloads moved between the API, the cache and the DOM)
  become the inductive type Json below, with JavaScript truthiness made
  explicit as a Bool-valued function.
* The per-endpoint cache becomes a function from string keys to optional
  entries carrying payload and timestamp; Date.now() becomes an explicit
  integer millisecond parameter threaded through each operation.
* A network interaction becomes a FetchOutcome value describing how the
  fetch promise settled (transport error, or an HTTP response with a
  status code and an optional parsed JSON body).
* The DOM becomes a function from element ids to optional elements, an
  element being its rendered text content plus its className; the
  sequential application of the region updates models the single-threaded
  event-loop interleaving of the concurrently-issued updates, whose
  footprints are disjoint.

Numbers are modelled as rationals.  JavaScript NaN is represented by
Option.none at the points where it can arise (parseFloat of an
unparseable input); the code under verification never performs float
arithmetic beyond scaling by powers of ten and fixed-point rendering, so
rational arithmetic is exact where the theorems evaluate it.
-/

section CseApi

attribute [local semireducible] Rat.add Rat.mul Rat.sub Rat.inv

/-- A JSON value, as produced by response.json() and consumed by the
module.  jnull stands for both JavaScript null and undefined: at every
consultation point of this module the two behave identically (both are
falsy, both make field access return undefined), except for string
interpolation, noted at jsToStr. -/
inductive Json where
  | jnull
  | jbool (b : Bool)
  | jnum (q : ℚ)
  | jstr (s : String)
  | jarr (elems : List Json)
  | jobj (fields : List (String × Json))
deriving Repr

open Json

/-- JavaScript truthiness of a value: null, undefined, false, 0, and the
empty string are falsy; every object (arrays included) is truthy. -/
def truthy : Json → Bool
  | jnull => false
  | jbool b => b
  | jnum q => q != 0
  | jstr s => s != ""
  | jarr _ => true
  | jobj _ => true

/-- Property access obj[k]: the first binding of the field in an object,
undefined (jnull) when the field is missing or the receiver is not an
object. -/
def getField (j : Json) (k : String) : Json :=
  match j with
  | jobj fields =>
    match fields.find? (fun p => p.1 == k) with
    | some p => p.2
    | none => jnull
  | _ => jnull

/-- The JavaScript a-or-b default idiom: a || b evaluates to a when a is
truthy and to b otherwise. -/
def jsOr (a b : Json) : Json := if truthy a then a else b

/-- Numeric value of a list of decimal digit characters. -/
def digitsVal (l : List Char) : ℕ :=
  l.foldl (fun acc c => acc * 10 + (c.toNat - 48)) 0

/-- Whitespace as skipped by the JavaScript numeric conversions. -/
def isWs (c : Char) : Bool :=
  c == ' ' || c == '\t' || c == '\n' || c == '\r'

/-- Reads an optionally signed decimal literal (digits, optional fraction)
from the front of a character list, returning its value and the unread
rest; none when no digits are present.  Exponent notation and the
Infinity literal are not modelled: no call site of this module feeds
them. -/
def parseSignedDec (l : List Char) : Option (ℚ × List Char) :=
  let (neg, l1) : Bool × List Char :=
    match l with
    | '-' :: t => (true, t)
    | '+' :: t => (false, t)
    | _ => (false, l)
  let (ds, l2) := l1.span Char.isDigit
  let (fs, l3) :=
    match l2 with
    | '.' :: t => t.span Char.isDigit
    | _ => ([], l2)
  if ds.isEmpty && fs.isEmpty then none
  else
    let v : ℚ := mkRat (digitsVal ds) 1 + mkRat (digitsVal fs) (10 ^ fs.length)
    some (if neg then -v else v, l3)

/-- JavaScript parseFloat applied to a value, none standing for NaN.
Numbers pass through; strings are parsed after skipping leading
whitespace, ignoring trailing garbage; null, undefined, booleans and
objects give NaN.  (An array first coerces to its joined string in
JavaScript; that exotic path is unreachable from this module's call
sites, which always pass numbers, strings or a defaulted 0.) -/
def parseFloatJ : Json → Option ℚ
  | jnum q => some q
  | jstr s => (parseSignedDec (s.toList.dropWhile isWs)).map (fun p => p.1)
  | _ => none

/-- JavaScript ToNumber coercion as performed by the host number
formatter, none standing for NaN.  Unlike parseFloat it maps the empty
or blank string to 0 and rejects trailing garbage. -/
def toNumberJ : Json → Option ℚ
  | jnum q => some q
  | jbool b => some (if b then 1 else 0)
  | jstr s =>
    let t := ((s.toList.dropWhile isWs).reverse.dropWhile isWs).reverse
    if t.isEmpty then some 0
    else
      match parseSignedDec t with
      | some (q, []) => some q
      | _ => none
  | _ => none

/-- Hundredths of a nonnegative rational, rounding half up exactly as
Number.prototype.toFixed does after stripping the sign. -/
def cents (q : ℚ) : ℕ := (⌊q * 100 + 1 / 2⌋).toNat

/-- Two decimal digits with a leading zero. -/
def twoDigitStr (n : ℕ) : String :=
  (if n < 10 then "0" else "") ++ toString n

/-- Number.prototype.toFixed(2): sign, then the magnitude rounded to a
hundredth (ties away from zero, matching the ECMAScript algorithm which
strips the sign first and breaks ties upward). -/
def toFixed2 (q : ℚ) : String :=
  if q < 0 then
    "-" ++ toString (cents (-q) / 100) ++ "." ++ twoDigitStr (cents (-q) % 100)
  else
    toString (cents q / 100) ++ "." ++ twoDigitStr (cents q % 100)

/-- Digit grouping: inserts a comma after every group of three digits,
working from the least significant end of a reversed digit list. -/
def groupRev : List Char → List Char
  | a :: b :: c :: d :: rest => a :: b :: c :: ',' :: groupRev (d :: rest)
  | l => l

/-- A natural number rendered with thousands separators. -/
def natGrouped (n : ℕ) : String :=
  String.mk (groupRev (toString n).toList.reverse).reverse

/-- String interpolation of a value inside a template literal.  Missing
fields interpolate as the text undefined (an explicit JSON null would
print null; the conflation is harmless here because every interpolated
field in this module is a string when present).  Nested array
stringification is approximated one level deep. -/
def jsToStr : Json → String
  | jnull => "undefined"
  | jbool b => if b then "true" else "false"
  | jnum q => if q.den == 1 then toString q.num else toString q.num ++ "/" ++ toString q.den
  | jstr s => s
  | jarr l =>
    String.intercalate ","
      (l.map (fun j =>
        match j with
        | jstr s => s
        | jnum q => if q.den == 1 then toString q.num else ""
        | _ => ""))
  | jobj _ => "[object Object]"

/-- The result record of formatPercentageChange. -/
structure FormattedChange where
  value : String
  isPositive : Bool
  color : String
deriving DecidableEq, Repr

/-- formatPercentageChange(change): parseFloat the input, render with two
fraction digits, and classify a nonnegative number as positive.  A NaN
parse yields the value NaN with the negative classification, exactly as
the source computes (NaN >= 0 is false). -/
def formatPercentageChange (change : Json) : FormattedChange :=
  match parseFloatJ change with
  | some num =>
    { value := toFixed2 num
      isPositive := decide (0 ≤ num)
      color := if 0 ≤ num then "positive" else "negative" }
  | none => { value := "NaN", isPositive := false, color := "negative" }

/-- formatCurrency(value): a deterministic model of
Intl.NumberFormat for the en-LK locale with currency LKR and at least two
fraction digits, rendered as the currency code, a space, the grouped
magnitude with two decimals, with a leading minus sign for negative
amounts.  A NaN argument renders as LKR NaN. -/
def formatCurrency (value : Json) : String :=
  match toNumberJ value with
  | none => "LKR NaN"
  | some q =>
    if q < 0 then
      "-LKR " ++ natGrouped (cents (-q) / 100) ++ "." ++ twoDigitStr (cents (-q) % 100)
    else
      "LKR " ++ natGrouped (cents q / 100) ++ "." ++ twoDigitStr (cents q % 100)

/-- formatLargeNumber(value): parseFloat the input, then test the
thresholds in descending order, first match winning; the comparisons are
made against the (signed) parsed number itself.  A NaN parse fails every
comparison and renders as NaN. -/
def formatLargeNumber (value : Json) : String :=
  match parseFloatJ value with
  | none => "NaN"
  | some num =>
    if num ≥ 1000000000 then toFixed2 (num / 1000000000) ++ "B"
    else if num ≥ 1000000 then toFixed2 (num / 1000000) ++ "M"
    else if num ≥ 1000 then toFixed2 (num / 1000) ++ "K"
    else toFixed2 num

/-- The specification's own wording of formatLargeNumber, transcribed
for comparison with the source: it chooses the scaling threshold against
the absolute value of the input, in descending order with first match
winning. -/
def claimLargeNumberAbs (q : ℚ) : String :=
  if |q| ≥ 1000000000 then toFixed2 (q / 1000000000) ++ "B"
  else if |q| ≥ 1000000 then toFixed2 (q / 1000000) ++ "M"
  else if |q| ≥ 1000 then toFixed2 (q / 1000) ++ "K"
  else toFixed2 q

/-- One cache slot: the stored payload and the Date.now() at store time. -/
structure CacheEntry where
  data : Json
  timestamp : ℤ

/-- The cache Map of CSEApi, keyed by endpoint name. -/
def Cache := String → Option CacheEntry

/-- The empty cache of a freshly constructed client. -/
def emptyCache : Cache := fun _ => none

/-- this.cacheTimeout, fixed at 30 seconds. -/
def cacheTimeout : ℤ := 30000

/-- getCachedData(key) at time now: the stored payload while the entry is
younger than cacheTimeout, null otherwise; the stale entry itself is not
evicted. -/
def getCachedData (cache : Cache) (key : String) (now : ℤ) : Json :=
  match cache key with
  | some cached => if now - cached.timestamp < cacheTimeout then cached.data else jnull
  | none => jnull

/-- setCachedData(key, data) at time now: overwrites the slot wholesale
with the payload and the current timestamp. -/
def setCachedData (cache : Cache) (key : String) (data : Json) (now : ℤ) : Cache :=
  fun k => if k = key then some { data := data, timestamp := now } else cache k

/-- How the fetch promise for one API call settled: a transport failure
(fetch rejected), or an HTTP response with its status code and the result
of response.json() (none when the body was not valid JSON, making json()
reject). -/
inductive FetchOutcome where
  | networkError
  | httpResponse (status : ℕ) (body : Option Json)

/-- makeApiCall(endpoint): POSTs to baseUrl + endpoint and returns the
parsed body; a transport failure, a response with response.ok false
(status outside 200..299), or a body that fails to parse are all caught
by the surrounding try block, logged, and collapsed to a null return.
The endpoint string only selects the URL and does not influence the
error-handling shape. -/
def makeApiCall (endpoint : String) (o : FetchOutcome) : Json :=
  match o with
  | .networkError => jnull
  | .httpResponse status body =>
    if 200 ≤ status ∧ status ≤ 299 then
      match body with
      | some data => data
      | none => jnull
    else jnull

/-- The shared body of the four endpoint getters: consult the cache and
return a truthy hit unconditionally; otherwise call makeApiCall, store a
truthy result under the fixed key with the current timestamp, and return
the fetched value (stored or not) together with the resulting cache. -/
def endpointFetch (cache : Cache) (now : ℤ) (cacheKey endpoint : String)
    (o : FetchOutcome) : Json × Cache :=
  let cached := getCachedData cache cacheKey now
  if truthy cached then (cached, cache)
  else
    let data := makeApiCall endpoint o
    if truthy data then (data, setCachedData cache cacheKey data now)
    else (data, cache)

/-- getMarketSummary(): cache key marketSummary, endpoint /marketSummery
(the upstream misspelling is part of the contract). -/
def getMarketSummary (cache : Cache) (now : ℤ) (o : FetchOutcome) : Json × Cache :=
  endpointFetch cache now "marketSummary" "/marketSummery" o

/-- getTopGainers(). -/
def getTopGainers (cache : Cache) (now : ℤ) (o : FetchOutcome) : Json × Cache :=
  endpointFetch cache now "topGainers" "/topGainers" o

/-- getTopLosers(). -/
def getTopLosers (cache : Cache) (now : ℤ) (o : FetchOutcome) : Json × Cache :=
  endpointFetch cache now "topLosers" "/topLosers" o

/-- getMostActive(). -/
def getMostActive (cache : Cache) (now : ℤ) (o : FetchOutcome) : Json × Cache :=
  endpointFetch cache now "mostActive" "/mostActive" o

/-- A DOM element as this module sees it: its rendered content (the
module writes textContent and innerHTML, collapsed into one field, and
never reads them back) and its className. -/
structure Elem where
  content : String
  className : String
deriving DecidableEq, Repr

/-- The page: a map from element id to the element, none when
document.getElementById finds nothing. -/
def Dom := String → Option Elem

/-- Writing content to an element by id; a missing element makes the
write a no-op, exactly like the guarded getElementById call sites. -/
def setContent (dom : Dom) (id s : String) : Dom :=
  fun k => if k = id then (dom k).map (fun e => { e with content := s }) else dom k

/-- Writing className to an element by id, no-op when missing. -/
def setClassName (dom : Dom) (id s : String) : Dom :=
  fun k => if k = id then (dom k).map (fun e => { e with className := s }) else dom k

/-- The fixed error fragment written by showError. -/
def errorDiv (message : String) : String :=
  "<div class=\"text-center text-danger\">" ++ message ++ "</div>"

/-- showError(elementId, message): writes the error fragment into the
named element when it exists (and logs, which the model drops). -/
def showError (dom : Dom) (elementId message : String) : Dom :=
  setContent dom elementId (errorDiv message)

/-- data.ASPI.toFixed(2) for a number.  A truthy non-number receiver
would make toFixed throw a TypeError in JavaScript; the theorems restrict
their inputs (summaryGood) so that this branch is never reached. -/
def jsToFixed2 : Json → String
  | jnum q => toFixed2 q
  | _ => ""

/-- The length === 0 test of createStocksTable: arrays and strings have a
length; on any other receiver the undefined length is not strictly equal
to 0. -/
def jsLengthIsZero : Json → Bool
  | jnull => false
  | jbool _ => false
  | jnum _ => false
  | jstr s => s.isEmpty
  | jarr xs => xs.isEmpty
  | jobj _ => false

/-- The length > 0 test of createTickerContent: undefined > 0 is false
for receivers without a length. -/
def jsLengthPos : Json → Bool
  | jnull => false
  | jbool _ => false
  | jnum _ => false
  | jstr s => !s.isEmpty
  | jarr xs => !xs.isEmpty
  | jobj _ => false

/-- data.slice(0, n) for the values this module can pass: a prefix of an
array or of a string.  Receivers without slice throw in JavaScript; the
theorems restrict their inputs (listGood) away from that. -/
def jsSliceTake (j : Json) (n : ℕ) : Json :=
  match j with
  | jarr xs => jarr (xs.take n)
  | jstr s => jstr (String.mk (s.toList.take n))
  | other => other

/-- String.prototype.toLowerCase, as per-character lowering over the
title strings this module passes (plain ASCII). -/
def jsToLower (s : String) : String := String.mk (s.toList.map Char.toLower)

/-- The no-data notice of createStocksTable, with the lowercased title
interpolated. -/
def noDataDiv (title : String) : String :=
  "<div class=\"text-center text-muted\">No " ++ jsToLower title ++ " data available</div>"

/-- The head of the table template literal, up to the open tbody. -/
def tableHeadHtml (title : String) : String :=
  "\n      <div class=\"card-custom\">\n        <div class=\"card-header-custom\">\n          <h5 class=\"mb-0\">Top " ++ title ++ "</h5>\n        </div>\n        <div class=\"card-body p-0\">\n          <div class=\"table-responsive\">\n            <table class=\"table table-hover mb-0\">\n              <thead>\n                <tr>\n                  <th>Symbol</th>\n                  <th>Price</th>\n                  <th>Change</th>\n                  <th>% Change</th>\n                </tr>\n              </thead>\n              <tbody>\n    "

/-- One row of the stocks table: the symbol-or-name-or-N/A cell, the
price (price or lastPrice or 0) as currency, the change (change or 0) as
currency, and the percentage cell, the last two colored by the sign
classification of change-or-percentageChange-or-0. -/
def stockRowHtml (stock : Json) : String :=
  let change := formatPercentageChange
    (jsOr (getField stock "change") (jsOr (getField stock "percentageChange") (jnum 0)))
  "\n        <tr>\n          <td><strong>"
    ++ jsToStr (jsOr (getField stock "symbol") (jsOr (getField stock "name") (jstr "N/A")))
    ++ "</strong></td>\n          <td>"
    ++ formatCurrency (jsOr (getField stock "price") (jsOr (getField stock "lastPrice") (jnum 0)))
    ++ "</td>\n          <td class=\"" ++ change.color ++ "\">"
    ++ formatCurrency (jsOr (getField stock "change") (jnum 0))
    ++ "</td>\n          <td class=\"" ++ change.color ++ "\">" ++ change.value
    ++ "%</td>\n        </tr>\n      "

/-- The closing chunk of the table template literal. -/
def tableTailHtml : String :=
  "\n              </tbody>\n            </table>\n          </div>\n        </div>\n      </div>\n    "

/-- createStocksTable(stocks, title): an absent or length-zero sequence
renders the no-data notice; otherwise the head, one row per stock in
order, and the tail.  (The forEach over a truthy non-array would throw
in JavaScript; the theorems restrict to arrays or absent values.) -/
def createStocksTable (stocks : Json) (title : String) : String :=
  if !truthy stocks || jsLengthIsZero stocks then noDataDiv title
  else
    let rows := match stocks with | jarr xs => xs | _ => []
    tableHeadHtml title ++ String.join (rows.map stockRowHtml) ++ tableTailHtml

/-- updateTopGainers with the settled result of getTopGainers: absent
data writes the fixed error fragment into the gainers placeholder;
otherwise the first five rows are rendered into the top-gainers
container.  (The early return on a missing container coincides with the
no-op write of setContent.) -/
def updateTopGainers (data : Json) (dom : Dom) : Dom :=
  if !truthy data then showError dom "gainers" "Unable to fetch top gainers data"
  else setContent dom "top-gainers" (createStocksTable (jsSliceTake data 5) "Gainers")

/-- updateTopLosers, same shape as updateTopGainers. -/
def updateTopLosers (data : Json) (dom : Dom) : Dom :=
  if !truthy data then showError dom "losers" "Unable to fetch top losers data"
  else setContent dom "top-losers" (createStocksTable (jsSliceTake data 5) "Losers")

/-- updateMostActive, same shape as updateTopGainers. -/
def updateMostActive (data : Json) (dom : Dom) : Dom :=
  if !truthy data then showError dom "active" "Unable to fetch most active data"
  else setContent dom "most-active" (createStocksTable (jsSliceTake data 5) "Most Active")

/-- updateASPI with the settled result of getMarketSummary: on absent
data the error fragment goes to the element with id ASPI; otherwise the
index is written only when data.ASPI is truthy, and the change text and
color class only when data.ASPIChange is truthy. -/
def updateASPI (data : Json) (dom : Dom) : Dom :=
  if !truthy data then showError dom "ASPI" "Unable to fetch ASPI data"
  else
    let dom1 :=
      if truthy (getField data "ASPI") then
        setContent dom "aspi-index" (jsToFixed2 (getField data "ASPI"))
      else dom
    if truthy (getField data "ASPIChange") then
      let change := formatPercentageChange (getField data "ASPIChange")
      setClassName (setContent dom1 "aspi-change" (change.value ++ "%"))
        "aspi-change" ("cse-change " ++ change.color)
    else dom1

/-- updateMarketSummary with the settled result of getMarketSummary: the
market-aspi element is always written when present (N/A on a falsy
ASPI); turnover, market cap and change are written only when the
corresponding field is truthy. -/
def updateMarketSummary (data : Json) (dom : Dom) : Dom :=
  if !truthy data then showError dom "summary" "Unable to fetch market summary"
  else
    let d1 := setContent dom "market-aspi"
      (if truthy (getField data "ASPI") then jsToFixed2 (getField data "ASPI") else "N/A")
    let d2 :=
      if truthy (getField data "turnover") then
        setContent d1 "market-turnover" (formatLargeNumber (getField data "turnover"))
      else d1
    let d3 :=
      if truthy (getField data "marketCap") then
        setContent d2 "market-cap" (formatLargeNumber (getField data "marketCap"))
      else d2
    if truthy (getField data "ASPIChange") then
      let change := formatPercentageChange (getField data "ASPIChange")
      setClassName (setContent d3 "market-change" (change.value ++ "%"))
        "market-change" ("cse-change " ++ change.color)
    else d3

/-- stock.slice(0,3) prefix used by the ticker loops. -/
def jsTake3 (j : Json) : List Json :=
  match j with
  | jarr xs => xs.take 3
  | _ => []

/-- One ticker fragment: symbol-or-name, the price as currency, and the
percentage in parentheses; the gainers loop puts an explicit plus sign
before the value, the losers loop leaves the value's own sign. -/
def tickerStockText (plusSign : Bool) (stock : Json) : String :=
  let change := formatPercentageChange
    (jsOr (getField stock "change") (jsOr (getField stock "percentageChange") (jnum 0)))
  jsToStr (jsOr (getField stock "symbol") (getField stock "name"))
    ++ ": "
    ++ formatCurrency (jsOr (getField stock "price") (jsOr (getField stock "lastPrice") (jnum 0)))
    ++ " (" ++ (if plusSign then "+" else "") ++ change.value ++ "%)"

/-- createTickerContent(gainers, losers): at most the first three of each
source in API order, gainer fragments with the plus prefix, loser
fragments with the natural sign, joined by the fixed bullet separator. -/
def createTickerContent (gainers losers : Json) : String :=
  let gainerItems :=
    if truthy gainers && jsLengthPos gainers then (jsTake3 gainers).map (tickerStockText true)
    else []
  let loserItems :=
    if truthy losers && jsLengthPos losers then (jsTake3 losers).map (tickerStockText false)
    else []
  String.intercalate " • " (gainerItems ++ loserItems)

/-- The fixed placeholder sentence of updateTicker. -/
def tickerPlaceholder : String := "CSE Market Data • Live Updates • Real-time Trading"

/-- updateTicker: no-op when the ticker element is missing; otherwise the
assembled content if it is a nonempty string, else the placeholder. -/
def updateTicker (gainers losers : Json) (dom : Dom) : Dom :=
  match dom "ticker-content" with
  | none => dom
  | some _ =>
    let content := createTickerContent gainers losers
    if content != "" then setContent dom "ticker-content" content
    else setContent dom "ticker-content" tickerPlaceholder

/-- CSEUI.initialize(): the six updates are issued together on the one
event-loop thread; their DOM footprints are pairwise disjoint and each
consumes only the settled data of its own getter (updateASPI and
updateMarketSummary share the market summary payload, the second call
being served from cache), so the sequential composition in the source's
Promise.all order is observationally the concurrent interleaving.  The
orchestration try/catch never fires for the modelled inputs: every
update is total here. -/
def initAll (summary gainers losers active : Json) (dom : Dom) : Dom :=
  updateTicker gainers losers
    (updateMarketSummary summary
      (updateMostActive active
        (updateTopLosers losers
          (updateTopGainers gainers
            (updateASPI summary dom)))))

/-- Well-typedness of a list payload: an array, or an absent/falsy value.
A truthy non-array would make slice or forEach throw in JavaScript, a
path outside this model. -/
def listGood : Json → Bool
  | jarr _ => true
  | d => !truthy d

/-- Well-typedness of a market summary payload: its ASPI field is a
number or falsy, so the toFixed call cannot throw. -/
def summaryGood (d : Json) : Bool :=
  match getField d "ASPI" with
  | jnum _ => true
  | f => !truthy f

/-- Element ids owned by updateASPI (content ids and its error id). -/
def aspiIds : List String := ["aspi-index", "aspi-change", "ASPI"]

/-- Element ids owned by updateTopGainers. -/
def gainersIds : List String := ["top-gainers", "gainers"]

/-- Element ids owned by updateTopLosers. -/
def losersIds : List String := ["top-losers", "losers"]

/-- Element ids owned by updateMostActive. -/
def activeIds : List String := ["most-active", "active"]

/-- Element ids owned by updateMarketSummary. -/
def summaryIds : List String :=
  ["market-aspi", "market-turnover", "market-cap", "market-change", "summary"]

/-- Element ids owned by updateTicker. -/
def tickerIds : List String := ["ticker-content"]

/-- Whether the pattern list leads (is the first part of) the text list. -/
def leadsWith : List Char → List Char → Bool
  | [], _ => true
  | _ :: _, [] => false
  | a :: as, b :: bs => a == b && leadsWith as bs

/-- Whether the pattern occurs anywhere inside the text list. -/
def hasSubAux (pat : List Char) : List Char → Bool
  | [] => pat.isEmpty
  | l@(_ :: t) => leadsWith pat l || hasSubAux pat t

/-- Substring occurrence on strings, used to state that a fragment holds
no table markup. -/
def hasSub (pat s : String) : Bool := hasSubAux pat.toList s.toList

/-- A concrete gainer row used by witnesses. -/
def gainStock : Json :=
  jobj [("symbol", jstr "ABC"), ("price", jnum 10), ("change", jnum ((5 : ℚ) / 2))]

/-- A concrete loser row used by witnesses. -/
def loseStock : Json :=
  jobj [("symbol", jstr "XYZ"), ("price", jnum 5), ("change", jnum (-(5 : ℚ) / 4))]

/-- A market summary whose four numeric fields are all present and all
zero. -/
def zeroSummary : Json :=
  jobj [("ASPI", jnum 0), ("ASPIChange", jnum 0), ("turnover", jnum 0), ("marketCap", jnum 0)]

/-- A page holding every placeholder this module writes, all empty. -/
def fullDom : Dom := fun id =>
  if id ∈ (aspiIds ++ gainersIds ++ losersIds ++ activeIds ++ summaryIds ++ tickerIds)
  then some ⟨"", ""⟩ else none

/-- Claim C1: for every cache key and stored payload, a getCachedData
performed t milliseconds after setCachedData with no intervening set
returns exactly the stored payload when t is below the 30000 ms
cacheTimeout, and returns null, indistinguishably from a cold miss on an
empty cache, once t reaches the timeout, while the stale entry itself
stays in place. -/
theorem c1_cache_get_after_set (c : Cache) (key : String) (d : Json) (tset t : ℤ) :
    (t < cacheTimeout →
      getCachedData (setCachedData c key d tset) key (tset + t) = d)
  ∧ (cacheTimeout ≤ t →
      getCachedData (setCachedData c key d tset) key (tset + t) = jnull
      ∧ getCachedData (setCachedData c key d tset) key (tset + t)
          = getCachedData emptyCache key (tset + t)
      ∧ ((setCachedData c key d tset) key).isSome = true)
  ∧ cacheTimeout = 30000 := by
  refine ⟨?_, ?_, rfl⟩
  · intro h
    simp only [getCachedData, setCachedData, if_pos]
    have ht : tset + t - tset < cacheTimeout := by omega
    simp [ht]
    intro h2
    omega
  · intro h
    have hge : ¬ (tset + t - tset < cacheTimeout) := by omega
    refine ⟨?_, ?_, ?_⟩
    · simp only [getCachedData, setCachedData, if_pos]
      simp [hge]
      intro h2
      omega
    · simp only [getCachedData, setCachedData, emptyCache, if_pos]
      simp [hge]
      intro h2
      omega
    · simp [setCachedData]

/-- Witness for C1 at a concrete key, payload and pair of lookup times
(fresh at 100 ms, expired at exactly 30000 ms). -/
theorem c1_cache_get_after_set_witness :
    getCachedData (setCachedData emptyCache "topGainers" (jarr [gainStock]) 0)
      "topGainers" (0 + 100) = jarr [gainStock]
  ∧ getCachedData (setCachedData emptyCache "topGainers" (jarr [gainStock]) 0)
      "topGainers" (0 + 30000) = jnull :=
  ⟨(c1_cache_get_after_set emptyCache "topGainers" (jarr [gainStock]) 0 100).1 (by decide),
   ((c1_cache_get_after_set emptyCache "topGainers" (jarr [gainStock]) 0 30000).2.1
      (by decide)).1⟩

/-- Counterexample to claim C2 as stated: the claim scales by the largest
threshold that the absolute value meets, so it predicts -2.00B for an
input of -2000000000, but the source compares the signed number itself
against the thresholds, fails all three comparisons, and renders the
value unscaled with no suffix. -/
theorem c2_cex_abs_reading :
    formatLargeNumber (jnum (-2000000000)) = "-2000000000.00"
  ∧ claimLargeNumberAbs (-2000000000) = "-2.00B"
  ∧ formatLargeNumber (jnum (-2000000000)) ≠ claimLargeNumberAbs (-2000000000) := by
  refine ⟨by decide, by decide, by decide⟩

/-- Claim C2 as amended: the thresholds 1e9, 1e6, 1e3 are compared in
descending order against the signed parsed value itself (so negative
inputs always render unscaled), first match wins, the matching scale's
suffix B, M or K is appended, and the scaled value is rendered with two
fraction digits; in particular 1000000000 renders as 1.00B and not as
1000.00M, 999 as 999.00, and 1500 as 1.50K. -/
theorem c2_large_number_signed (q : ℚ) :
    ((1000000000 : ℚ) ≤ q → formatLargeNumber (jnum q) = toFixed2 (q / 1000000000) ++ "B")
  ∧ ((1000000 : ℚ) ≤ q ∧ q < 1000000000 →
      formatLargeNumber (jnum q) = toFixed2 (q / 1000000) ++ "M")
  ∧ ((1000 : ℚ) ≤ q ∧ q < 1000000 →
      formatLargeNumber (jnum q) = toFixed2 (q / 1000) ++ "K")
  ∧ (q < 1000 → formatLargeNumber (jnum q) = toFixed2 q)
  ∧ formatLargeNumber (jnum 1000000000) = "1.00B"
  ∧ formatLargeNumber (jnum 1000000000) ≠ "1000.00M"
  ∧ formatLargeNumber (jnum 999) = "999.00"
  ∧ formatLargeNumber (jnum 1500) = "1.50K" := by
  refine ⟨?_, ?_, ?_, ?_, by decide, by decide, by decide, by decide⟩
  · intro h
    simp [formatLargeNumber, parseFloatJ, ge_iff_le, h]
  · rintro ⟨h1, h2⟩
    have h3 : ¬ ((1000000000 : ℚ) ≤ q) := by linarith
    simp [formatLargeNumber, parseFloatJ, ge_iff_le, h1, h3]
  · rintro ⟨h1, h2⟩
    have h3 : ¬ ((1000000000 : ℚ) ≤ q) := by linarith
    have h4 : ¬ ((1000000 : ℚ) ≤ q) := by linarith
    simp [formatLargeNumber, parseFloatJ, ge_iff_le, h1, h3, h4]
  · intro h
    have h3 : ¬ ((1000000000 : ℚ) ≤ q) := by linarith
    have h4 : ¬ ((1000000 : ℚ) ≤ q) := by linarith
    have h5 : ¬ ((1000 : ℚ) ≤ q) := by linarith
    simp [formatLargeNumber, parseFloatJ, ge_iff_le, h3, h4, h5]

/-- Witness for the amended C2 on each interval: 2.5e9 scales to B, 3.5e6
to M, 1500 to K, and 999 stays unscaled. -/
theorem c2_large_number_signed_witness :
    formatLargeNumber (jnum 2500000000) = toFixed2 ((2500000000 : ℚ) / 1000000000) ++ "B"
  ∧ formatLargeNumber (jnum 3500000) = toFixed2 ((3500000 : ℚ) / 1000000) ++ "M"
  ∧ formatLargeNumber (jnum 1500) = toFixed2 ((1500 : ℚ) / 1000) ++ "K"
  ∧ formatLargeNumber (jnum 999) = toFixed2 (999 : ℚ) :=
  ⟨(c2_large_number_signed 2500000000).1 (by norm_num),
   (c2_large_number_signed 3500000).2.1 ⟨by norm_num, by norm_num⟩,
   (c2_large_number_signed 1500).2.2.1 ⟨by norm_num, by norm_num⟩,
   (c2_large_number_signed 999).2.2.2.1 (by norm_num)⟩

/-- Claim C3: makeApiCall never propagates an exception: a transport
failure and a response whose status is outside the success range both
produce a null return, and in every case the call either returns null or
returns the parsed body of a successful response. -/
theorem c3_makeApiCall_never_throws (endpoint : String) (o : FetchOutcome) :
    (o = FetchOutcome.networkError → makeApiCall endpoint o = jnull)
  ∧ (∀ (status : ℕ) (body : Option Json), status < 200 ∨ 300 ≤ status →
      makeApiCall endpoint (FetchOutcome.httpResponse status body) = jnull)
  ∧ (makeApiCall endpoint o = jnull
     ∨ ∃ (status : ℕ) (data : Json),
         o = FetchOutcome.httpResponse status (some data)
         ∧ 200 ≤ status ∧ status ≤ 299
         ∧ makeApiCall endpoint o = data) := by
  refine ⟨fun h => by subst h; rfl, ?_, ?_⟩
  · intro status body h
    have hno : ¬ (200 ≤ status ∧ status ≤ 299) := by omega
    simp [makeApiCall, hno]
  · cases o with
    | networkError => exact Or.inl rfl
    | httpResponse status body =>
      by_cases hok : 200 ≤ status ∧ status ≤ 299
      · cases body with
        | none => exact Or.inl (by simp [makeApiCall, hok])
        | some data =>
          exact Or.inr ⟨status, data, rfl, hok.1, hok.2, by simp [makeApiCall, hok]⟩
      · exact Or.inl (by simp [makeApiCall, hok])

/-- Witness for C3: a transport failure and a 404 both yield null. -/
theorem c3_makeApiCall_never_throws_witness :
    makeApiCall "/topGainers" FetchOutcome.networkError = jnull
  ∧ makeApiCall "/topGainers" (FetchOutcome.httpResponse 404 (some (jarr []))) = jnull :=
  ⟨(c3_makeApiCall_never_throws "/topGainers" FetchOutcome.networkError).1 rfl,
   (c3_makeApiCall_never_throws "/topGainers" FetchOutcome.networkError).2.1
      404 (some (jarr [])) (by omega)⟩

/-- Claim C4: when the underlying fetch fails, each of the four endpoint
getters returns null without storing anything: on a cache miss the
returned pair is null together with the unchanged cache, and a key with
no prior entry stays absent at every later lookup time. -/
theorem c4_failed_fetch_not_cached (c : Cache) (now : ℤ) (o : FetchOutcome)
    (hfail : ∀ ep, makeApiCall ep o = jnull) :
    (truthy (getCachedData c "marketSummary" now) = false →
      getMarketSummary c now o = (jnull, c))
  ∧ (truthy (getCachedData c "topGainers" now) = false →
      getTopGainers c now o = (jnull, c))
  ∧ (truthy (getCachedData c "topLosers" now) = false →
      getTopLosers c now o = (jnull, c))
  ∧ (truthy (getCachedData c "mostActive" now) = false →
      getMostActive c now o = (jnull, c))
  ∧ (c "topGainers" = none →
      ∀ t : ℤ, getCachedData (getTopGainers c now o).2 "topGainers" t = jnull) := by
  have hgen : ∀ key ep, truthy (getCachedData c key now) = false →
      endpointFetch c now key ep o = (jnull, c) := by
    intro key ep hmiss
    simp [endpointFetch, hmiss, hfail, show truthy jnull = false from rfl]
  refine ⟨hgen "marketSummary" "/marketSummery",
          hgen "topGainers" "/topGainers",
          hgen "topLosers" "/topLosers",
          hgen "mostActive" "/mostActive", ?_⟩
  intro hnone t
  have hmiss : truthy (getCachedData c "topGainers" now) = false := by
    simp [getCachedData, hnone, truthy]
  rw [show getTopGainers c now o = (jnull, c) from hgen "topGainers" "/topGainers" hmiss]
  simp [getCachedData, hnone]

/-- Witness for C4: a network error against an empty cache returns null
and leaves the cache empty. -/
theorem c4_failed_fetch_not_cached_witness :
    getTopGainers emptyCache 0 FetchOutcome.networkError = (jnull, emptyCache)
  ∧ getCachedData (getTopGainers emptyCache 0 FetchOutcome.networkError).2
      "topGainers" 50000 = jnull :=
  ⟨(c4_failed_fetch_not_cached emptyCache 0 FetchOutcome.networkError
      (fun _ => rfl)).2.1 rfl,
   (c4_failed_fetch_not_cached emptyCache 0 FetchOutcome.networkError
      (fun _ => rfl)).2.2.2.2 rfl 50000⟩

/-- Counterexample to claim C5 as stated: a successful call whose JSON
body is the number 0 is a non-null result, and the getter returns it to
the caller, but the truthiness guard in the source skips the store, so
the cache stays empty. -/
theorem c5_cex_falsy_result_not_stored :
    makeApiCall "/marketSummery" (FetchOutcome.httpResponse 200 (some (jnum 0))) ≠ jnull
  ∧ (getMarketSummary emptyCache 0 (FetchOutcome.httpResponse 200 (some (jnum 0)))).1
      = jnum 0
  ∧ (getMarketSummary emptyCache 0 (FetchOutcome.httpResponse 200 (some (jnum 0)))).2
      "marketSummary" = none := by
  refine ⟨?_, rfl, rfl⟩
  intro h
  rw [show makeApiCall "/marketSummery" (FetchOutcome.httpResponse 200 (some (jnum 0)))
        = jnum 0 from rfl] at h
  exact Json.noConfusion h

/-- Claim C5 as amended: on a cache miss, whenever the fetched result is
truthy (non-null and not a falsy primitive such as 0, false or the empty
string) each getter stores it under its fixed key with the current
timestamp and returns it; a non-null but falsy result is returned
without being cached. -/
theorem c5_truthy_result_cached (c : Cache) (now : ℤ) (o : FetchOutcome) (d : Json)
    (hdata : ∀ ep, makeApiCall ep o = d) (htruthy : truthy d = true) :
    (truthy (getCachedData c "marketSummary" now) = false →
      getMarketSummary c now o = (d, setCachedData c "marketSummary" d now)
      ∧ (getMarketSummary c now o).2 "marketSummary" = some ⟨d, now⟩)
  ∧ (truthy (getCachedData c "topGainers" now) = false →
      getTopGainers c now o = (d, setCachedData c "topGainers" d now)
      ∧ (getTopGainers c now o).2 "topGainers" = some ⟨d, now⟩)
  ∧ (truthy (getCachedData c "topLosers" now) = false →
      getTopLosers c now o = (d, setCachedData c "topLosers" d now)
      ∧ (getTopLosers c now o).2 "topLosers" = some ⟨d, now⟩)
  ∧ (truthy (getCachedData c "mostActive" now) = false →
      getMostActive c now o = (d, setCachedData c "mostActive" d now)
      ∧ (getMostActive c now o).2 "mostActive" = some ⟨d, now⟩) := by
  have hgen : ∀ key ep, truthy (getCachedData c key now) = false →
      endpointFetch c now key ep o = (d, setCachedData c key d now)
      ∧ (endpointFetch c now key ep o).2 key = some ⟨d, now⟩ := by
    intro key ep hmiss
    have heq : endpointFetch c now key ep o = (d, setCachedData c key d now) := by
      simp [endpointFetch, hmiss, hdata, htruthy]
    exact ⟨heq, by rw [heq]; simp [setCachedData]⟩
  exact ⟨hgen "marketSummary" "/marketSummery",
         hgen "topGainers" "/topGainers",
         hgen "topLosers" "/topLosers",
         hgen "mostActive" "/mostActive"⟩

/-- Witness for the amended C5: a successful fetch of a one-row array on
an empty cache is stored under topGainers with the call's timestamp. -/
theorem c5_truthy_result_cached_witness :
    getTopGainers emptyCache 7 (FetchOutcome.httpResponse 200 (some (jarr [gainStock])))
      = (jarr [gainStock], setCachedData emptyCache "topGainers" (jarr [gainStock]) 7)
  ∧ (getTopGainers emptyCache 7
        (FetchOutcome.httpResponse 200 (some (jarr [gainStock])))).2 "topGainers"
      = some ⟨jarr [gainStock], 7⟩ :=
  (c5_truthy_result_cached emptyCache 7
      (FetchOutcome.httpResponse 200 (some (jarr [gainStock]))) (jarr [gainStock])
      (fun _ => rfl) rfl).2.1 rfl

/-- Claim C6: formatPercentageChange classifies zero as positive with the
positive color tag and the two-digit rendering 0.00, and in general a
nonnegative numeric change is positive/positive while a negative one is
negative-colored. -/
theorem c6_zero_is_positive :
    formatPercentageChange (jnum 0) = ⟨"0.00", true, "positive"⟩
  ∧ ∀ q : ℚ,
      ((0 : ℚ) ≤ q → formatPercentageChange (jnum q) = ⟨toFixed2 q, true, "positive"⟩)
    ∧ (q < 0 → formatPercentageChange (jnum q) = ⟨toFixed2 q, false, "negative"⟩) := by
  refine ⟨by decide, fun q => ⟨?_, ?_⟩⟩
  · intro h
    simp [formatPercentageChange, parseFloatJ, h]
  · intro h
    have h2 : ¬ ((0 : ℚ) ≤ q) := by linarith
    simp [formatPercentageChange, parseFloatJ, h2]

/-- Witness for C6 on both sides of the boundary: 3 and -1.25. -/
theorem c6_zero_is_positive_witness :
    formatPercentageChange (jnum 3) = ⟨"3.00", true, "positive"⟩
  ∧ formatPercentageChange (jnum (-(5 : ℚ) / 4)) = ⟨"-1.25", false, "negative"⟩ := by
  constructor
  · rw [(c6_zero_is_positive.2 3).1 (by norm_num)]
    decide
  · rw [(c6_zero_is_positive.2 (-(5 : ℚ) / 4)).2 (by norm_num)]
    decide

/-- Claim C7: for every title, createStocksTable on an absent or empty
row sequence returns exactly the single no-data notice, and for the
three titles the module passes, that notice holds no table markup. -/
theorem c7_no_empty_table_shell (title : String) :
    createStocksTable jnull title = noDataDiv title
  ∧ createStocksTable (jarr []) title = noDataDiv title
  ∧ hasSub "<table" (createStocksTable (jarr []) "Gainers") = false
  ∧ hasSub "<table" (createStocksTable jnull "Losers") = false
  ∧ hasSub "<table" (createStocksTable (jarr []) "Most Active") = false :=
  ⟨rfl, rfl, by decide, by decide, by decide⟩

/-- Claim C8: the ticker takes at most the first three gainers and three
losers in API order, renders gainers with an explicit plus prefix and
losers with their own sign, joins everything with the fixed bullet
separator (shown concretely on one gainer and one loser), and when both
sources are absent updateTicker writes the fixed placeholder sentence
into the ticker region. -/
theorem c8_ticker_first3_and_placeholder (gs ls : List Json) :
    createTickerContent (jarr gs) (jarr ls)
      = String.intercalate " • "
          ((gs.take 3).map (tickerStockText true) ++ (ls.take 3).map (tickerStockText false))
  ∧ createTickerContent (jarr [gainStock]) (jarr [loseStock])
      = "ABC: LKR 10.00 (+2.50%) • XYZ: LKR 5.00 (-1.25%)"
  ∧ ∀ dom : Dom, updateTicker jnull jnull dom "ticker-content"
      = (dom "ticker-content").map (fun e => { e with content := tickerPlaceholder }) := by
  refine ⟨?_, by decide, ?_⟩
  · cases gs <;> cases ls <;>
      simp [createTickerContent, jsLengthPos, jsTake3, truthy]
  · intro dom
    unfold updateTicker
    cases hd : dom "ticker-content" with
    | none => simp [hd]
    | some e =>
      have hempty : createTickerContent jnull jnull = "" := rfl
      simp [hd, hempty, setContent]

/-- setContent leaves every other id untouched. -/
theorem setContent_ne (dom : Dom) (id s k : String) (h : k ≠ id) :
    setContent dom id s k = dom k := by
  simp [setContent, h]

/-- updateASPI writes only its owned ids. -/
theorem updateASPI_frame (d : Json) (dom : Dom) (k : String) (h : k ∉ aspiIds) :
    updateASPI d dom k = dom k := by
  simp only [aspiIds, List.mem_cons, List.not_mem_nil, or_false, not_or] at h
  obtain ⟨h1, h2, h3⟩ := h
  unfold updateASPI showError
  split_ifs <;> simp [setContent, setClassName, h1, h2, h3]

/-- updateTopGainers writes only its owned ids. -/
theorem updateTopGainers_frame (d : Json) (dom : Dom) (k : String) (h : k ∉ gainersIds) :
    updateTopGainers d dom k = dom k := by
  simp only [gainersIds, List.mem_cons, List.not_mem_nil, or_false, not_or] at h
  obtain ⟨h1, h2⟩ := h
  unfold updateTopGainers showError
  split_ifs <;> simp [setContent, h1, h2]

/-- updateTopLosers writes only its owned ids. -/
theorem updateTopLosers_frame (d : Json) (dom : Dom) (k : String) (h : k ∉ losersIds) :
    updateTopLosers d dom k = dom k := by
  simp only [losersIds, List.mem_cons, List.not_mem_nil, or_false, not_or] at h
  obtain ⟨h1, h2⟩ := h
  unfold updateTopLosers showError
  split_ifs <;> simp [setContent, h1, h2]

/-- updateMostActive writes only its owned ids. -/
theorem updateMostActive_frame (d : Json) (dom : Dom) (k : String) (h : k ∉ activeIds) :
    updateMostActive d dom k = dom k := by
  simp only [activeIds, List.mem_cons, List.not_mem_nil, or_false, not_or] at h
  obtain ⟨h1, h2⟩ := h
  unfold updateMostActive showError
  split_ifs <;> simp [setContent, h1, h2]

/-- updateMarketSummary writes only its owned ids. -/
theorem updateMarketSummary_frame (d : Json) (dom : Dom) (k : String)
    (h : k ∉ summaryIds) : updateMarketSummary d dom k = dom k := by
  simp only [summaryIds, List.mem_cons, List.not_mem_nil, or_false, not_or] at h
  obtain ⟨h1, h2, h3, h4, h5⟩ := h
  unfold updateMarketSummary showError
  split_ifs <;> simp [setContent, setClassName, h1, h2, h3, h4, h5]

/-- updateTicker writes only the ticker region. -/
theorem updateTicker_frame (g l : Json) (dom : Dom) (k : String) (h : k ∉ tickerIds) :
    updateTicker g l dom k = dom k := by
  simp only [tickerIds, List.mem_cons, List.not_mem_nil, or_false, not_or] at h
  unfold updateTicker
  cases hd : dom "ticker-content" with
  | none => rfl
  | some e =>
    by_cases hc : createTickerContent g l = "" <;> simp [hc, setContent, h]

/-- The value of updateTopLosers at an id depends only on the incoming
page's value at that id (every read and write of the operation is
per-id). -/
theorem updateTopLosers_pointwise (d : Json) (dom1 dom2 : Dom) (k : String)
    (h : dom1 k = dom2 k) : updateTopLosers d dom1 k = updateTopLosers d dom2 k := by
  unfold updateTopLosers showError
  split_ifs <;> simp [setContent, h]

/-- Pointwise dependence of updateMostActive, as for updateTopLosers. -/
theorem updateMostActive_pointwise (d : Json) (dom1 dom2 : Dom) (k : String)
    (h : dom1 k = dom2 k) : updateMostActive d dom1 k = updateMostActive d dom2 k := by
  unfold updateMostActive showError
  split_ifs <;> simp [setContent, h]

/-- Pointwise dependence of updateMarketSummary, as for updateTopLosers. -/
theorem updateMarketSummary_pointwise (d : Json) (dom1 dom2 : Dom) (k : String)
    (h : dom1 k = dom2 k) :
    updateMarketSummary d dom1 k = updateMarketSummary d dom2 k := by
  unfold updateMarketSummary showError
  split_ifs <;> simp [setContent, setClassName, h]

/-- What updateTicker leaves in the ticker region: the assembled content
when nonempty, the placeholder otherwise, on whatever element is there. -/
theorem updateTicker_at (g l : Json) (dom : Dom) :
    updateTicker g l dom "ticker-content"
      = (dom "ticker-content").map (fun e =>
          { e with content :=
              if createTickerContent g l != "" then createTickerContent g l
              else tickerPlaceholder }) := by
  unfold updateTicker
  cases hd : dom "ticker-content" with
  | none => simp [hd]
  | some e =>
    by_cases hc : createTickerContent g l = "" <;> simp [hc, setContent, hd]

/-- Counterexample to claim C9 as stated: the ticker is listed among the
regions that render exactly as they would with no failure, but the
ticker consumes the gainers data, so a failed getTopGainers changes the
ticker text written in the same pass. -/
theorem c9_cex_ticker_sees_gainers_failure :
    initAll jnull (jarr [gainStock]) (jarr [loseStock]) jnull fullDom "ticker-content"
  ≠ initAll jnull jnull (jarr [loseStock]) jnull fullDom "ticker-content" := by
  decide

/-- Claim C9 as amended: within one initialize pass over well-typed
payloads, a failed gainers source affects only the gainers placeholder,
which receives the fixed error fragment, and the ticker text, which
still gets written (content from the surviving sources, or the fixed
placeholder); every region outside the gainers and ticker placeholders
renders exactly as with no failure, and none of the six updates ever
writes outside its own placeholders. -/
theorem c9_region_isolation (summary g g' losers active : Json) (dom : Dom)
    (hs : summaryGood summary = true) (hg : listGood g = true) (hg' : listGood g' = true)
    (hl : listGood losers = true) (ha : listGood active = true) :
    (∀ k, k ∉ gainersIds ++ tickerIds →
      initAll summary g losers active dom k = initAll summary g' losers active dom k)
  ∧ initAll summary jnull losers active dom "gainers"
      = (dom "gainers").map (fun e =>
          { e with content := errorDiv "Unable to fetch top gainers data" })
  ∧ initAll summary jnull losers active dom "ticker-content"
      = (dom "ticker-content").map (fun e =>
          { e with content :=
              if createTickerContent jnull losers != "" then createTickerContent jnull losers
              else tickerPlaceholder })
  ∧ (∀ (d : Json) (dm : Dom) (k : String), k ∉ aspiIds → updateASPI d dm k = dm k)
  ∧ (∀ (d : Json) (dm : Dom) (k : String), k ∉ gainersIds → updateTopGainers d dm k = dm k)
  ∧ (∀ (d : Json) (dm : Dom) (k : String), k ∉ losersIds → updateTopLosers d dm k = dm k)
  ∧ (∀ (d : Json) (dm : Dom) (k : String), k ∉ activeIds → updateMostActive d dm k = dm k)
  ∧ (∀ (d : Json) (dm : Dom) (k : String), k ∉ summaryIds →
      updateMarketSummary d dm k = dm k)
  ∧ (∀ (gd ld : Json) (dm : Dom) (k : String), k ∉ tickerIds →
      updateTicker gd ld dm k = dm k) := by
  refine ⟨?_, ?_, ?_,
    fun d dm k h => updateASPI_frame d dm k h,
    fun d dm k h => updateTopGainers_frame d dm k h,
    fun d dm k h => updateTopLosers_frame d dm k h,
    fun d dm k h => updateMostActive_frame d dm k h,
    fun d dm k h => updateMarketSummary_frame d dm k h,
    fun gd ld dm k h => updateTicker_frame gd ld dm k h⟩
  · intro k hk
    have hkg : k ∉ gainersIds := fun hx => hk (List.mem_append.mpr (Or.inl hx))
    have hkt : k ∉ tickerIds := fun hx => hk (List.mem_append.mpr (Or.inr hx))
    unfold initAll
    rw [updateTicker_frame _ _ _ _ hkt, updateTicker_frame _ _ _ _ hkt]
    apply updateMarketSummary_pointwise
    apply updateMostActive_pointwise
    apply updateTopLosers_pointwise
    rw [updateTopGainers_frame _ _ _ hkg, updateTopGainers_frame _ _ _ hkg]
  · unfold initAll
    rw [updateTicker_frame _ _ _ _ (by decide : ("gainers" : String) ∉ tickerIds),
      updateMarketSummary_frame _ _ _ (by decide : ("gainers" : String) ∉ summaryIds),
      updateMostActive_frame _ _ _ (by decide : ("gainers" : String) ∉ activeIds),
      updateTopLosers_frame _ _ _ (by decide : ("gainers" : String) ∉ losersIds)]
    have hwrite : updateTopGainers jnull (updateASPI summary dom) "gainers"
        = ((updateASPI summary dom) "gainers").map (fun e =>
            { e with content := errorDiv "Unable to fetch top gainers data" }) := by
      simp [updateTopGainers, truthy, showError, setContent]
    rw [hwrite, updateASPI_frame _ _ _ (by decide : ("gainers" : String) ∉ aspiIds)]
  · unfold initAll
    rw [updateTicker_at]
    rw [updateMarketSummary_frame _ _ _
        (by decide : ("ticker-content" : String) ∉ summaryIds),
      updateMostActive_frame _ _ _ (by decide : ("ticker-content" : String) ∉ activeIds),
      updateTopLosers_frame _ _ _ (by decide : ("ticker-content" : String) ∉ losersIds),
      updateTopGainers_frame _ _ _ (by decide : ("ticker-content" : String) ∉ gainersIds),
      updateASPI_frame _ _ _ (by decide : ("ticker-content" : String) ∉ aspiIds)]

/-- Witness for the amended C9: with concrete payloads on the full page,
the losers region is identical whether the gainers fetch succeeded or
failed. -/
theorem c9_region_isolation_witness :
    initAll jnull (jarr [gainStock]) (jarr [loseStock]) jnull fullDom "top-losers"
  = initAll jnull jnull (jarr [loseStock]) jnull fullDom "top-losers" :=
  (c9_region_isolation jnull (jarr [gainStock]) jnull (jarr [loseStock]) jnull fullDom
    (by decide) rfl (by decide) rfl (by decide)).1 "top-losers" (by decide)

/-- Claim C10: a market summary whose ASPI, ASPIChange, turnover and
marketCap fields are present but zero behaves exactly like one with the
fields missing: updateASPI changes nothing, updateMarketSummary leaves
every element but market-aspi untouched, and market-aspi alone is
written with the fixed text N/A. -/
theorem c10_zero_fields_as_missing (dom : Dom) :
    updateASPI zeroSummary dom = dom
  ∧ updateASPI zeroSummary dom = updateASPI (jobj []) dom
  ∧ (∀ k, k ≠ "market-aspi" → updateMarketSummary zeroSummary dom k = dom k)
  ∧ updateMarketSummary zeroSummary dom "market-aspi"
      = (dom "market-aspi").map (fun e => { e with content := "N/A" })
  ∧ updateMarketSummary zeroSummary dom = updateMarketSummary (jobj []) dom := by
  refine ⟨rfl, rfl, ?_, rfl, rfl⟩
  intro k hk
  show setContent dom "market-aspi" "N/A" k = dom k
  simp [setContent, hk]

/-- Witness for C10: on the full page, the all-zero summary leaves the
turnover cell untouched and the whole ASPI region unchanged. -/
theorem c10_zero_fields_as_missing_witness :
    updateMarketSummary zeroSummary fullDom "market-turnover" = fullDom "market-turnover"
  ∧ updateASPI zeroSummary fullDom = fullDom :=
  ⟨(c10_zero_fields_as_missing fullDom).2.2.1 "market-turnover" (by decide),
   (c10_zero_fields_as_missing fullDom).1⟩

end CseApi
